import Mathlib

/-!
# Verification of `multiplatform-hashes.py`

A shallow embedding of the dependabot-terraform-multiplatform-hashes action
(`src/multiplatform-hashes.py`) together with proofs about its behaviour.

The program is sequential orchestration: it fetches a PR, inspects its
labels and title, clones the head branch, regenerates the Terraform
provider lock file for a list of platforms, commits/pushes, and finally
patches the PR's label set.  We model every externally visible step
(HTTP request, subprocess invocation) as an `Event` in a trace, and the
outside world (HTTP statuses, subprocess exit results, file contents,
environment variables) as an oracle record `World` consulted at each
call site.  Fatal conditions (`assert` failures, uncaught exceptions,
`sys.exit(1)`) are modelled with `Except Err`.

Python-level details kept faithfully:
  * `RE_PR_TITLE_FORMAT = re.compile(r'^Bump .+ from .+ to .+ in (?P<path>.+)$')`
    is embedded as a greedy backtracking matcher over the literal/`.+`
    item sequence, including the CPython semantics that `.` does not
    match a newline and `$` also matches just before one trailing newline.
  * `RE_MAYBE_SECRET = re.compile(r'.*_(secret|token|key)$', re.I)` likewise.
  * `str.lstrip('/')` removes every leading slash.
  * `try: check_call(...) except CalledProcessError: ...` is modelled by
    combinators that swallow the error raised by the guarded action.
  * `os.environ[name]` raises `KeyError` when absent, while
    `os.environ.get(name, '')` defaults to the empty string.

Not modelled (irrelevant to the properties below): log formatting,
`urljoin` URL normalisation, the temporary-directory lifetime, and
argparse flag parsing (the parsed flags appear as the `Args` record).
-/

namespace MultiplatformHashes

/-! ## Regex embedding

`RE_PR_TITLE_FORMAT` is a concatenation of literals and greedy `.+`
items.  `reMatch` mirrors the backtracking engine: a `.+` item first
consumes the longest possible run of non-newline characters and then
backtracks.  The `fuel` argument only serves structural recursion; one
unit is spent per pattern item, so `items.length + 1` is always enough.
-/

inductive RItem where
  | lit (s : List Char)
  | dotPlus
deriving DecidableEq

/-- One greedy `.+` step: try the split lengths `k, k-1, ..., 1` in that
order (longest first, as the greedy engine does) and keep the first one
after which the rest of the pattern matches. -/
def greedyFirst (f : Nat → Option (List (List Char))) : Nat → Option (List (List Char))
  | 0 => none
  | k + 1 =>
    match f (k + 1) with
    | some gs => some gs
    | none => greedyFirst f k

/-- Backtracking matcher for a sequence of regex items, anchored at both
ends (`re.match` + a final `$`).  Returns the list of `.+` captures.
Following CPython, `$` also matches just before a single trailing
newline, and `.` never matches a newline. -/
def reMatch : Nat → List RItem → List Char → Option (List (List Char))
  | 0, _, _ => none
  | _ + 1, [], cs => if cs = [] ∨ cs = ['\n'] then some [] else none
  | fuel + 1, .lit l :: rest, cs =>
    if l.isPrefixOf cs then reMatch fuel rest (cs.drop l.length) else none
  | fuel + 1, .dotPlus :: rest, cs =>
    let maxLen := (cs.takeWhile (fun c => c ≠ '\n')).length
    greedyFirst
      (fun k => (reMatch fuel rest (cs.drop k)).map (fun gs => cs.take k :: gs))
      maxLen

/-- The item sequence of `RE_PR_TITLE_FORMAT`:
`^Bump .+ from .+ to .+ in (?P<path>.+)$`. -/
def prTitlePattern : List RItem :=
  [.lit "Bump ".toList, .dotPlus,
   .lit " from ".toList, .dotPlus,
   .lit " to ".toList, .dotPlus,
   .lit " in ".toList, .dotPlus]

/-- Matching `RE_PR_TITLE_FORMAT.match(title)` followed by `.group('path')`: the
`path` group is the final `.+` capture. -/
def titlePathGroup (title : String) : Option String :=
  match reMatch (prTitlePattern.length + 1) prTitlePattern title.toList with
  | some gs => gs.getLast?.map String.mk
  | none => none

/-- Python's `str.lstrip('/')`: remove every leading `'/'`. -/
def lstripSlash (s : String) : String :=
  String.mk (s.toList.dropWhile (fun c => c = '/'))

/-- Line 102 of the source: the terraform project path extracted from a
PR title, `parts.group('path').lstrip('/')` (`none` when the title does
not match and the `assert` fires). -/
def extractProjectPath (title : String) : Option String :=
  (titlePathGroup title).map lstripSlash

/-! ## Secret redaction (`RE_MAYBE_SECRET` and `abort_empty_api_token`) -/

/-- CPython `$`: strip at most one trailing newline before an end-anchored
suffix test. -/
def chompNl (cs : List Char) : List Char :=
  if cs.getLast? = some '\n' then cs.dropLast else cs

/-- The alternatives of `.*_(secret|token|key)$`. -/
def secretSuffixes : List (List Char) :=
  ["_secret".toList, "_token".toList, "_key".toList]

/-- Embedding of `RE_MAYBE_SECRET.match(k)`: case-insensitive, anchored; the `.*` part
cannot cross a newline, and `$` tolerates one trailing newline. -/
def maybeSecret (k : String) : Bool :=
  let cs := (chompNl k.toList).map Char.toLower
  secretSuffixes.any (fun suf =>
    suf.isSuffixOf cs && (cs.take (cs.length - suf.length)).all (fun c => c ≠ '\n'))

/-- Lines 35–38 of the source: a long value keeps its last 3 characters
behind `len - 3` asterisks, a short one is fully masked. -/
def obfuscate (v : String) : String :=
  if 6 < v.length then
    String.mk (List.replicate (v.length - 3) '*' ++ v.toList.drop (v.length - 3))
  else
    String.mk (List.replicate v.length '*')

/-- The value as it appears in the environment dump: redacted only when
the variable name looks secret-like. -/
def redactValue (k v : String) : String :=
  if maybeSecret k then obfuscate v else v

/-- Line 39: one line of the environment dump,
`'  {k}: {obfuscated_v} ({len(v)})\n'`. -/
def dumpEntry (k v : String) : String :=
  "  " ++ k ++ ": " ++ redactValue k v ++ " (" ++ toString v.length ++ ")\n"

/-- Embedding of `sorted(os.environ.items())`: environment entries by key.  (Python
compares the pairs lexicographically; keys of `os.environ` are unique,
so ordering by key is the same.) -/
def sortEnv (env : List (String × String)) : List (String × String) :=
  env.mergeSort (fun a b => a.1 ≤ b.1)

/-- The lines written to the `StringIO` buffer in `abort_empty_api_token`. -/
def envDumpLines (env : List (String × String)) : List String :=
  (sortEnv env).map (fun kv => dumpEntry kv.1 kv.2)

/-- The full redacted environment dump logged by `abort_empty_api_token`. -/
def envDump (env : List (String × String)) : String :=
  String.join (envDumpLines env)

/-! ## Data model

Transient records mirroring the JSON payloads the program reads, plus an
oracle `World` describing the outside world's response at every call
site, in program order. -/

/-- The slice of the `GET /repos/…/pulls/{n}` payload the program reads:
`title`, `labels[].name`, `head.ref`, `head.repo.ssh_url`. -/
structure PrPayload where
  title : String
  labels : List String
  headRef : String
  headSshUrl : String
deriving DecidableEq

/-- The slice of the `GET /user` payload the program reads (`name` may be
JSON `null` or absent, hence `Option`). -/
structure UserPayload where
  login : String
  name : Option String
deriving DecidableEq

/-- One entry of the `GET /user/emails` payload. -/
structure EmailEntry where
  email : String
  primary : Bool
deriving DecidableEq

/-- The outcome of the `git commit` invocation.  The program cannot tell
the two failure kinds apart (both raise `CalledProcessError`), but the
world remembers the cause. -/
inductive CommitOutcome where
  | success
  | failNothingToCommit
  | failOther
deriving DecidableEq

/-- Holds exactly when `git commit` exited 0. -/
def CommitOutcome.exitOk : CommitOutcome → Bool
  | .success => true
  | _ => false

/-- Oracle for every external interaction, one field per call site in
program order.  `prResp` is indexed by attempt number so that statements
about (the absence of) retries of the initial PR fetch are expressible:
the program only ever consults attempt `0`. -/
structure World where
  env : List (String × String)
  prResp : Nat → Nat × PrPayload
  userStatus : Nat
  userPayload : UserPayload
  emailsStatus : Nat
  emailsPayload : List EmailEntry
  gitConfigNameOk : Bool
  gitConfigEmailOk : Bool
  gitConfigUrlOk : Bool
  cloneOk : Bool
  chdirProjectOk : Bool
  versionFile : Option String
  curlOk : Bool
  unzipOk : Bool
  rmOk : Bool
  initOk : Bool
  lockOk : Bool
  addOk : Bool
  commitResult : CommitOutcome
  pushOk : Bool
  patchStatus : Nat

/-- The PR payload of the (single) fetch the program performs. -/
def World.fetchedPr (w : World) : PrPayload := (w.prResp 0).2

/-- The HTTP status of that fetch. -/
def World.fetchStatus (w : World) : Nat := (w.prResp 0).1

/-- Embedding of `pr_label_names` (line 69): the set of label names of the fetched PR. -/
def World.prLabels (w : World) : Finset String := w.fetchedPr.labels.toFinset

/-- The module-level configuration globals, as assigned in `__main__`. -/
structure Config where
  tokenLight : String
  tokenFull : String
  repoOwner : String
  repoName : String
  prNumber : Nat
  fixedLabel : String
  platforms : List String

/-- The parsed command-line arguments consumed by `__main__`
(`--gh-repository` already split into owner and name). -/
structure Args where
  prNumber : Nat
  repoOwner : String
  repoName : String
  lightVar : String
  fullVar : String
  fixedLabel : String
  platforms : List String

/-! ## Effects, errors and the trace monad -/

/-- An externally visible action.  `apiRequest` covers the read-only
HTTP calls; `apiPatchLabels` is the single mutating call (its body is
`{'labels': list(pr_label_names)}`, a set serialised in arbitrary
order, hence a `Finset`); `procCall` is a `subprocess.check_call`. -/
inductive Event where
  | apiRequest (token method path : String)
  | apiPatchLabels (token path : String) (labels : Finset String)
  | procCall (cmd : List String)
deriving DecidableEq

/-- The ways a run dies: a non-expected HTTP status (`HTTPError` or the
`assert` in `make_request`), a failed `check_call`, the title-format
`assert`, the `[0]` on an empty primary-email list, a failed `open` of
`.terraform-version`, a failed `os.chdir`, the `sys.exit(1)` in
`abort_empty_api_token` (carrying the dump it logged), and the
`KeyError` from `os.environ[...]`. -/
inductive Err where
  | badStatus (path : String) (status : Nat)
  | calledProcess (cmd : List String)
  | titleMismatch (title : String)
  | noPrimaryEmail
  | fileNotFound (name : String)
  | osError (path : String)
  | abortEmptyToken (isFull : Bool) (dump : String)
  | keyError (var : String)
deriving DecidableEq, Repr

deriving instance DecidableEq for Except

/-- Does this fatal exit log the redacted environment dump? -/
def Err.hasDump : Err → Bool
  | .abortEmptyToken _ _ => true
  | _ => false

abbrev Trace := List Event

/-- Trace-accumulating error monad: a run maps the trace so far to the
extended trace and a result.  The trace survives a fatal error, so that
"no X happened before the crash" is expressible. -/
def M (α : Type) : Type := Trace → Trace × Except Err α

def M.pure (a : α) : M α := fun t => (t, .ok a)

def M.bind (x : M α) (f : α → M β) : M β := fun t =>
  match x t with
  | (t1, .ok a) => f a t1
  | (t1, .error e) => (t1, .error e)

instance : Monad M where
  pure := M.pure
  bind := M.bind

/-- Raise a fatal error. -/
def throwErr (e : Err) : M α := fun t => (t, .error e)

/-- Embedding of `subprocess.check_call(cmd)`: the invocation is always visible in the
trace; a non-zero exit raises `CalledProcessError`. -/
def checkCall (cmd : List String) (exitOk : Bool) : M Unit := fun t =>
  (t ++ [.procCall cmd], if exitOk then .ok () else .error (.calledProcess cmd))

/-- Embedding of `try: body except CalledProcessError: pass` (the `terraform init`
guard, lines 134–137). -/
def tryIgnore (body : M Unit) : M Unit := fun t => ((body t).1, .ok ())

/-- Embedding of `try: body except CalledProcessError: pass else: onSuccess` (the
commit/push block, lines 147–152). -/
def tryElse (body : M Unit) (onSuccess : M Unit) : M Unit := fun t =>
  match body t with
  | (t1, .ok _) => onSuccess t1
  | (t1, .error _) => (t1, .ok ())

/-- Embedding of `make_get_request` (line 55): one GET whose only accepted status is
the expected one; any other status is fatal (either `urlopen` raised
`HTTPError` or the `assert` in `make_request` fired). -/
def makeGetRequest (token path : String) (status : Nat) (payload : α)
    (expected : Nat) : M α := fun t =>
  (t ++ [.apiRequest token "GET" path],
   if status = expected then .ok payload else .error (.badStatus path status))

/-- Embedding of `make_modify_request` with the `{'labels': …}` body (lines 59 and
156): the call happens, then a non-expected status is fatal. -/
def makeLabelsRequest (token path : String) (labels : Finset String)
    (status expected : Nat) : M Unit := fun t =>
  (t ++ [.apiPatchLabels token path labels],
   if status = expected then .ok () else .error (.badStatus path status))

/-! ## The program -/

/-- Path `repos/{REPO_OWNER}/{REPO_NAME}/pulls/{PR_NUMBER}` (line 66). -/
def pullsPath (cfg : Config) : String :=
  "repos/" ++ cfg.repoOwner ++ "/" ++ cfg.repoName ++ "/pulls/" ++ toString cfg.prNumber

/-- Path `repos/{REPO_OWNER}/{REPO_NAME}/issues/{PR_NUMBER}` (line 156). -/
def issuesPath (cfg : Config) : String :=
  "repos/" ++ cfg.repoOwner ++ "/" ++ cfg.repoName ++ "/issues/" ++ toString cfg.prNumber

/-- Python `str.replace(old, new, 1)` on single characters: replace the first
occurrence only. -/
def replaceFirst : List Char → Char → Char → List Char
  | [], _, _ => []
  | c :: rest, old, nw => if c = old then nw :: rest else c :: replaceFirst rest old nw

/-- Embedding of the clone-URL computation,
`'ssh://' + ssh_url.replace(':', '/', 1)`
(line 112). -/
def cloneUrl (sshUrl : String) : String :=
  "ssh://" ++ String.mk (replaceFirst sshUrl.toList ':' '/')

/-- The command regenerating the lock file (line 141): the fixed binary
path, `providers lock`, then one `-platform=<p>` flag per configured
platform, in list order. -/
def lockCmd (platforms : List String) : List String :=
  ["/terraform", "providers", "lock"] ++ platforms.map (fun p => "-platform=" ++ p)

/-- Embedding of the primary-email pick (line
89): the first primary email; an empty list raises `IndexError`. -/
def firstPrimaryEmail (emails : List EmailEntry) : M String :=
  match (emails.filter (fun p => p.primary)).map (fun p => p.email) with
  | [] => throwErr .noPrimaryEmail
  | e :: _ => M.pure e

/-- The body of `main` from the title parse onwards (lines 98–158),
reached once both label gates have passed and the full token is known to
be non-empty.  `prLabelNames` is the set computed at line 69. -/
def mainAfterGates (cfg : Config) (w : World) (pr : PrPayload)
    (prLabelNames : Finset String) : M Unit := do
  -- Get information about our GitHub user.
  let user ← makeGetRequest cfg.tokenFull "user" w.userStatus w.userPayload 200
  let userName :=
    if ((user.name.getD "").trim = "") then user.login else (user.name.getD "").trim
  let emails ← makeGetRequest cfg.tokenFull "user/emails" w.emailsStatus w.emailsPayload 200
  let userEmail ← firstPrimaryEmail emails
  -- Set our git commit identification.
  checkCall ["git", "config", "--global", "user.name", userName] w.gitConfigNameOk
  checkCall ["git", "config", "--global", "user.email", userEmail] w.gitConfigEmailOk
  -- Rewrite all SSH git operations to use HTTPS with our access token.
  checkCall ["git", "config", "--global",
    "url.https://oauth2:" ++ cfg.tokenFull ++ "@github.com.insteadOf",
    "ssh://git@github.com"] w.gitConfigUrlOk
  -- Obtain the terraform project path from the PR title (assert on mismatch).
  match extractProjectPath pr.title with
  | none => throwErr (.titleMismatch pr.title)
  | some terraformProjectPath => do
    -- Clone the repository.
    checkCall ["git", "clone", "--depth", "1", "--branch", pr.headRef,
      cloneUrl pr.headSshUrl, cfg.repoName] w.cloneOk
    -- Change directory to the terraform project.
    if ¬ w.chdirProjectOk then
      throwErr (.osError (cfg.repoName ++ "/" ++ terraformProjectPath))
    else do
      -- Work out which version of terraform to use.
      match w.versionFile with
      | none => throwErr (.fileNotFound ".terraform-version")
      | some contents => do
        let terraformVersion := contents.trim
        -- Download the appropriate version of terraform.
        checkCall ["curl",
          "https://releases.hashicorp.com/terraform/" ++ terraformVersion ++
            "/terraform_" ++ terraformVersion ++ "_linux_amd64.zip",
          "-o", "terraform.zip"] w.curlOk
        checkCall ["unzip", "-j", "terraform.zip", "-d", "/"] w.unzipOk
        checkCall ["rm", "terraform.zip"] w.rmOk
        -- Initialize the terraform directory, ignoring errors.
        tryIgnore (checkCall ["/terraform", "init"] w.initOk)
        -- Attempt to create the multiplatform hashes.
        checkCall (lockCmd cfg.platforms) w.lockOk
        -- Commit and push any changes to the lock file.
        checkCall ["git", "add", ".terraform.lock.hcl"] w.addOk
        tryElse (checkCall ["git", "commit", "-m", "Multiplatform hashes."]
            w.commitResult.exitOk)
          (checkCall ["git", "push"] w.pushOk)
        -- Add the fixed label to the PR.
        makeLabelsRequest cfg.tokenLight (issuesPath cfg)
          (insert cfg.fixedLabel prLabelNames) w.patchStatus 200

/-- Embedding of `main()` (lines 63–159). -/
def mainM (cfg : Config) (w : World) : M Unit := do
  -- Get information about the PR.
  let pr ← makeGetRequest cfg.tokenLight (pullsPath cfg)
    (w.prResp 0).1 (w.prResp 0).2 200
  let prLabelNames : Finset String := pr.labels.toFinset
  -- Bail if this is not a terraform dependabot PR.
  if ¬ ("dependencies" ∈ prLabelNames ∧ "terraform" ∈ prLabelNames) then
    Pure.pure ()
  -- Bail if this PR has already had this fixing up process applied to it.
  else if cfg.fixedLabel ∈ prLabelNames then
    Pure.pure ()
  -- Ensure we have an API token.
  else if cfg.tokenFull = "" then
    throwErr (.abortEmptyToken true (envDump w.env))
  else
    mainAfterGates cfg w pr prLabelNames

/-- A complete run of `main()`, started on the empty trace. -/
def runMain (cfg : Config) (w : World) : Trace × Except Err Unit := mainM cfg w []

/-- Lookup in the modelled environment, in the style of `os.environ.get`. -/
def lookupEnv (env : List (String × String)) (k : String) : Option String :=
  (env.find? (fun kv => kv.1 = k)).map (fun kv => kv.2)

/-- The `__main__` block (lines 162–203): read the tokens from the
environment (`os.environ[light]` raises `KeyError` when absent,
`os.environ.get(full, '')` defaults to empty), build the configuration,
abort with the redacted dump when the light token is empty, then run
`main`. -/
def topLevel (args : Args) (w : World) : Trace × Except Err Unit :=
  match lookupEnv w.env args.lightVar with
  | none => ([], .error (.keyError args.lightVar))
  | some light =>
    let cfg : Config :=
      { tokenLight := light
        tokenFull := (lookupEnv w.env args.fullVar).getD ""
        repoOwner := args.repoOwner
        repoName := args.repoName
        prNumber := args.prNumber
        fixedLabel := args.fixedLabel
        platforms := args.platforms }
    if light = "" then ([], .error (.abortEmptyToken false (envDump w.env)))
    else runMain cfg w

/-! ## Concrete example inputs

A representative PR, configuration and world used to instantiate the
universally quantified results below on concrete data. -/

/-- A typical dependabot terraform PR payload. -/
def examplePr : PrPayload :=
  { title := "Bump hashicorp/aws from 4.0 to 5.0 in /infra/network"
    labels := ["dependencies", "terraform"]
    headRef := "dependabot/terraform/infra/network/hashicorp/aws-5.0"
    headSshUrl := "git@github.com:acme/infra" }

/-- A typical configuration (the argparse defaults for the label and the
platform list). -/
def exampleCfg : Config :=
  { tokenLight := "ghp_light"
    tokenFull := "ghp_full"
    repoOwner := "acme"
    repoName := "infra"
    prNumber := 42
    fixedLabel := "multiplatform-hashes"
    platforms := ["darwin_amd64", "linux_amd64"] }

/-- A world in which every external interaction succeeds. -/
def happyWorld : World :=
  { env := [("DEPENDABOT_TERRAFORM_GITHUB_TOKEN", "ghp_full"),
            ("GITHUB_TOKEN", "ghp_light"),
            ("HOME", "/root")]
    prResp := fun _ => (200, examplePr)
    userStatus := 200
    userPayload := { login := "acme-bot", name := some "Acme Bot" }
    emailsStatus := 200
    emailsPayload := [{ email := "bot@acme.example", primary := true }]
    gitConfigNameOk := true
    gitConfigEmailOk := true
    gitConfigUrlOk := true
    cloneOk := true
    chdirProjectOk := true
    versionFile := some "1.5.7\n"
    curlOk := true
    unzipOk := true
    rmOk := true
    initOk := true
    lockOk := true
    addOk := true
    commitResult := .success
    pushOk := true
    patchStatus := 200 }

/-- The argparse view matching `exampleCfg` (default variable names). -/
def exampleArgs : Args :=
  { prNumber := 42
    repoOwner := "acme"
    repoName := "infra"
    lightVar := "GITHUB_TOKEN"
    fullVar := "DEPENDABOT_TERRAFORM_GITHUB_TOKEN"
    fixedLabel := "multiplatform-hashes"
    platforms := ["darwin_amd64", "linux_amd64"] }

/-! ## Observations on traces -/

/-- A mutating API call (the only one the program has is the label
`PATCH`). -/
def Event.isApiMutation : Event → Bool
  | .apiPatchLabels _ _ _ => true
  | _ => false

/-- Any subprocess invocation (git, curl, unzip, rm, terraform). -/
def Event.isProcCall : Event → Bool
  | .procCall _ => true
  | _ => false

/-- A read-only API request. -/
def Event.isApiRequest : Event → Bool
  | .apiRequest _ _ _ => true
  | _ => false

/-- A `git add` invocation (with any arguments). -/
def Event.isGitAdd : Event → Bool
  | .procCall ("git" :: "add" :: _) => true
  | _ => false

/-- The initial PR fetch event. -/
def fetchEvent (cfg : Config) : Event :=
  .apiRequest cfg.tokenLight "GET" (pullsPath cfg)

/-! ## Stage preconditions and run shape -/

/-- Everything up to and including the `rm terraform.zip` call succeeds:
the fetch returns 200, both label gates pass, the full token is
non-empty, both user requests succeed and yield a primary email, the
three `git config` calls, the clone, the `chdir`, the version-file read
and the curl/unzip/rm calls all succeed.  This is exactly the condition
for execution to reach the terraform-init step with the init, lock,
commit, push and patch outcomes still unconstrained. -/
def reachesTerraform (cfg : Config) (w : World) : Prop :=
  w.fetchStatus = 200 ∧
  "dependencies" ∈ w.prLabels ∧ "terraform" ∈ w.prLabels ∧
  cfg.fixedLabel ∉ w.prLabels ∧
  cfg.tokenFull ≠ "" ∧
  w.userStatus = 200 ∧ w.emailsStatus = 200 ∧
  w.emailsPayload.filter (fun p => p.primary) ≠ [] ∧
  w.gitConfigNameOk = true ∧ w.gitConfigEmailOk = true ∧ w.gitConfigUrlOk = true ∧
  (extractProjectPath w.fetchedPr.title).isSome = true ∧
  w.cloneOk = true ∧ w.chdirProjectOk = true ∧
  w.versionFile.isSome = true ∧
  w.curlOk = true ∧ w.unzipOk = true ∧ w.rmOk = true

/-- The committer name the program settles on (line 86). -/
def resolvedUserName (w : World) : String :=
  if ((w.userPayload.name.getD "").trim = "") then w.userPayload.login
  else (w.userPayload.name.getD "").trim

/-- The committer email the program settles on (line 89): the first
primary email. -/
def resolvedUserEmail (w : World) : String :=
  ((w.emailsPayload.filter (fun p => p.primary)).map (fun p => p.email)).headI

/-- The trace produced before the terraform-init step when
`reachesTerraform` holds. -/
def preTerraformTrace (cfg : Config) (w : World) : Trace :=
  [fetchEvent cfg,
   .apiRequest cfg.tokenFull "GET" "user",
   .apiRequest cfg.tokenFull "GET" "user/emails",
   .procCall ["git", "config", "--global", "user.name", resolvedUserName w],
   .procCall ["git", "config", "--global", "user.email", resolvedUserEmail w],
   .procCall ["git", "config", "--global",
     "url.https://oauth2:" ++ cfg.tokenFull ++ "@github.com.insteadOf",
     "ssh://git@github.com"],
   .procCall ["git", "clone", "--depth", "1", "--branch", w.fetchedPr.headRef,
     cloneUrl w.fetchedPr.headSshUrl, cfg.repoName],
   .procCall ["curl",
     "https://releases.hashicorp.com/terraform/" ++ (w.versionFile.getD "").trim ++
       "/terraform_" ++ (w.versionFile.getD "").trim ++ "_linux_amd64.zip",
     "-o", "terraform.zip"],
   .procCall ["unzip", "-j", "terraform.zip", "-d", "/"],
   .procCall ["rm", "terraform.zip"]]

/-- The remainder of the run from the terraform-init step onwards. -/
def terraformTail (cfg : Config) (w : World) : M Unit := do
  tryIgnore (checkCall ["/terraform", "init"] w.initOk)
  checkCall (lockCmd cfg.platforms) w.lockOk
  checkCall ["git", "add", ".terraform.lock.hcl"] w.addOk
  tryElse (checkCall ["git", "commit", "-m", "Multiplatform hashes."]
      w.commitResult.exitOk)
    (checkCall ["git", "push"] w.pushOk)
  makeLabelsRequest cfg.tokenLight (issuesPath cfg)
    (insert cfg.fixedLabel w.prLabels) w.patchStatus 200

/-! ## Compositional invariant predicates -/

/-- Every patch event an action appends carries `lbl` in its label set. -/
def PatchOk (lbl : String) (act : M α) : Prop :=
  ∀ t tok pth L, Event.apiPatchLabels tok pth L ∈ (act t).1 →
    Event.apiPatchLabels tok pth L ∈ t ∨ lbl ∈ L

/-- Every error an action can raise satisfies `P`. -/
def ErrSafe (P : Err → Prop) (act : M α) : Prop :=
  ∀ t e, (act t).2 = .error e → P e

/-- Errors other than the "full token missing" abort. -/
def NotFullAbort (e : Err) : Prop := ∀ d, e ≠ .abortEmptyToken true d

/-! ## Spec-side formulations

These definitions follow the words of the specification (not the code);
the theorems below compare the code against them. -/

/-- Spec side (claim C2): remove exactly one leading slash if present. -/
def stripOneLeadingSlash (s : String) : String :=
  match s.toList with
  | '/' :: rest => String.mk rest
  | _ => s

/-- Spec side (amended claim C2): remove every leading slash, as a plain
recursion. -/
def removeLeadingSlashes : List Char → List Char
  | [] => []
  | c :: rest => if c = '/' then removeLeadingSlashes rest else c :: rest

/-- Spec side (claim C8): the last `n` characters of a list. -/
def lastChars (n : Nat) (cs : List Char) : List Char :=
  (cs.reverse.take n).reverse

/-! ## Variant worlds for concrete instantiations -/

/-- A PR missing the `terraform` gate label. -/
def noLabelWorld : World :=
  { happyWorld with
    prResp := fun _ => (200, { examplePr with labels := ["dependencies"] }) }

/-- A PR already carrying the fixed label. -/
def fixedLabelWorld : World :=
  { happyWorld with
    prResp := fun _ =>
      (200, { examplePr with
              labels := ["dependencies", "terraform", "multiplatform-hashes"] }) }

/-- A world whose first PR-fetch response is a 401 and whose second
would be a 200: exactly the situation the spec's retry story is about. -/
def retryWorld : World :=
  { happyWorld with
    prResp := fun n => (if n = 0 then 401 else 200, examplePr) }

/-- A world where `git commit` fails for a reason other than "nothing to
commit". -/
def commitFailWorld : World :=
  { happyWorld with commitResult := .failOther }

/-- A world where `git commit` fails because there was nothing to
commit (the no-diff case). -/
def noDiffWorld : World :=
  { happyWorld with commitResult := .failNothingToCommit }

/-- An environment without the light-token variable at all. -/
def noLightWorld : World :=
  { happyWorld with env := [("HOME", "/root"), ("PATH", "/usr/bin")] }

/-- An environment where the light-token variable is present but empty. -/
def emptyLightWorld : World :=
  { happyWorld with
    env := [("GITHUB_TOKEN", ""), ("HOME", "/root"), ("USER_API_KEY", "hunter2secret")] }

/-- A world where `terraform init` exits non-zero but everything else
succeeds. -/
def initFailWorld : World :=
  { happyWorld with initOk := false }

/-- A world where the `GET /user` request returns a 500. -/
def userFailWorld : World :=
  { happyWorld with userStatus := 500 }

/-- Light token present, full-token variable absent, and the PR missing
a gate label. -/
def noFullNoLabelWorld : World :=
  { happyWorld with
    env := [("GITHUB_TOKEN", "ghp_light"), ("HOME", "/root")]
    prResp := fun _ => (200, { examplePr with labels := ["dependencies"] }) }

/-! ## Run-shape lemmas -/

theorem run_bail_noGateLabels (cfg : Config) (w : World)
    (h1 : w.fetchStatus = 200)
    (h2 : ¬ ("dependencies" ∈ w.prLabels ∧ "terraform" ∈ w.prLabels)) :
    runMain cfg w = ([fetchEvent cfg], .ok ()) := by
  have h1' : (w.prResp 0).1 = 200 := h1
  have h2' : ¬ ("dependencies" ∈ (w.prResp 0).2.labels ∧
      "terraform" ∈ (w.prResp 0).2.labels) := by
    simpa [World.prLabels, World.fetchedPr] using h2
  simp [runMain, mainM, makeGetRequest, Bind.bind, M.bind, Pure.pure, M.pure,
    fetchEvent, h1', h2']

theorem run_bail_fixedLabel (cfg : Config) (w : World)
    (h1 : w.fetchStatus = 200)
    (h2 : cfg.fixedLabel ∈ w.prLabels) :
    runMain cfg w = ([fetchEvent cfg], .ok ()) := by
  have h1' : (w.prResp 0).1 = 200 := h1
  have h2' : cfg.fixedLabel ∈ (w.prResp 0).2.labels := by
    simpa [World.prLabels, World.fetchedPr] using h2
  by_cases hg : "dependencies" ∈ (w.prResp 0).2.labels ∧
      "terraform" ∈ (w.prResp 0).2.labels
  · simp [runMain, mainM, makeGetRequest, Bind.bind, M.bind, Pure.pure, M.pure,
      fetchEvent, h1', h2', hg]
  · simp [runMain, mainM, makeGetRequest, Bind.bind, M.bind, Pure.pure, M.pure,
      fetchEvent, h1', hg]

theorem run_bail_emptyFullToken (cfg : Config) (w : World)
    (h1 : w.fetchStatus = 200)
    (h2 : "dependencies" ∈ w.prLabels ∧ "terraform" ∈ w.prLabels)
    (h3 : cfg.fixedLabel ∉ w.prLabels)
    (h4 : cfg.tokenFull = "") :
    runMain cfg w = ([fetchEvent cfg], .error (.abortEmptyToken true (envDump w.env))) := by
  have h1' : (w.prResp 0).1 = 200 := h1
  have h2' : "dependencies" ∈ (w.prResp 0).2.labels ∧
      "terraform" ∈ (w.prResp 0).2.labels := by
    simpa [World.prLabels, World.fetchedPr] using h2
  have h3' : ¬ cfg.fixedLabel ∈ (w.prResp 0).2.labels := by
    simpa [World.prLabels, World.fetchedPr] using h3
  simp [runMain, mainM, makeGetRequest, Bind.bind, M.bind, Pure.pure, M.pure,
    fetchEvent, throwErr, h1', h2', h3', h4]

theorem run_pastGates (cfg : Config) (w : World)
    (h1 : w.fetchStatus = 200)
    (h2 : "dependencies" ∈ w.prLabels ∧ "terraform" ∈ w.prLabels)
    (h3 : cfg.fixedLabel ∉ w.prLabels)
    (h4 : cfg.tokenFull ≠ "") :
    runMain cfg w =
      mainAfterGates cfg w w.fetchedPr w.prLabels [fetchEvent cfg] := by
  have h1' : (w.prResp 0).1 = 200 := h1
  have h2' : "dependencies" ∈ (w.prResp 0).2.labels ∧
      "terraform" ∈ (w.prResp 0).2.labels := by
    simpa [World.prLabels, World.fetchedPr] using h2
  have h3' : ¬ cfg.fixedLabel ∈ (w.prResp 0).2.labels := by
    simpa [World.prLabels, World.fetchedPr] using h3
  simp [runMain, mainM, makeGetRequest, Bind.bind, M.bind, fetchEvent,
    World.prLabels, World.fetchedPr, h1', h2', h3', h4]

theorem run_reachesTerraform (cfg : Config) (w : World) (h : reachesTerraform cfg w) :
    runMain cfg w = terraformTail cfg w (preTerraformTrace cfg w) := by
  obtain ⟨h1, h2, h3, h4, h5, h6, h7, h8, h9, h10, h11, h12, h13, h14, h15, h16, h17, h18⟩ := h
  have h1' : (w.prResp 0).1 = 200 := h1
  have h23 : "dependencies" ∈ (w.prResp 0).2.labels ∧
      "terraform" ∈ (w.prResp 0).2.labels := by
    simpa [World.prLabels, World.fetchedPr] using And.intro h2 h3
  have h4' : ¬ cfg.fixedLabel ∈ (w.prResp 0).2.labels := by
    simpa [World.prLabels, World.fetchedPr] using h4
  obtain ⟨p, hp⟩ := Option.isSome_iff_exists.mp h12
  obtain ⟨vf, hvf⟩ := Option.isSome_iff_exists.mp h15
  obtain ⟨e, es, hes⟩ := List.exists_cons_of_ne_nil h8
  simp only [World.fetchedPr] at hp hvf
  simp [runMain, mainM, mainAfterGates, firstPrimaryEmail, makeGetRequest,
    makeLabelsRequest,
    checkCall, tryIgnore, tryElse, throwErr, Bind.bind, M.bind, Pure.pure, M.pure,
    terraformTail, preTerraformTrace, fetchEvent, resolvedUserName, resolvedUserEmail,
    World.prLabels, World.fetchedPr,
    h1', h23, h4', h5, h6, h7, h9, h10, h11, hp, h13, h14, hvf, h16, h17, h18, hes]

/-! ## Compositional invariants

Two facts hold of every path through the program, not only the happy
one: every label `PATCH` it ever issues carries the fixed label, and the
"full token missing" abort cannot be raised past the gate section.  Both
are proved by structural closure over the monad. -/

theorem patchOk_pure (lbl : String) (a : α) : PatchOk lbl (Pure.pure a : M α) :=
  fun _ _ _ _ h => Or.inl h

theorem patchOk_throw (lbl : String) (e : Err) : PatchOk lbl (throwErr e : M α) :=
  fun _ _ _ _ h => Or.inl h

theorem patchOk_checkCall (lbl : String) (cmd : List String) (b : Bool) :
    PatchOk lbl (checkCall cmd b) := by
  intro t tok pth L h
  simp only [checkCall, List.mem_append, List.mem_singleton] at h
  rcases h with h | h
  · exact Or.inl h
  · cases h

theorem patchOk_makeGet (lbl token path : String) (st : Nat) (payload : α) (exp : Nat) :
    PatchOk lbl (makeGetRequest token path st payload exp) := by
  intro t tok pth L h
  simp only [makeGetRequest, List.mem_append, List.mem_singleton] at h
  rcases h with h | h
  · exact Or.inl h
  · cases h

theorem patchOk_makeLabels (lbl token path : String) (L0 : Finset String)
    (st exp : Nat) (hL : lbl ∈ L0) :
    PatchOk lbl (makeLabelsRequest token path L0 st exp) := by
  intro t tok pth L h
  simp only [makeLabelsRequest, List.mem_append, List.mem_singleton] at h
  rcases h with h | h
  · exact Or.inl h
  · cases h
    exact Or.inr hL

theorem patchOk_bind {lbl : String} {x : M α} {f : α → M β}
    (hx : PatchOk lbl x) (hf : ∀ a, PatchOk lbl (f a)) :
    PatchOk lbl (x >>= f) := by
  intro t tok pth L h
  replace h : Event.apiPatchLabels tok pth L ∈ (M.bind x f t).1 := h
  unfold M.bind at h
  rcases hxt : x t with ⟨t1, r⟩
  rw [hxt] at h
  cases r with
  | ok a =>
    simp only at h
    rcases hf a t1 tok pth L h with h1 | h1
    · exact hx t tok pth L (by rw [hxt]; exact h1)
    · exact Or.inr h1
  | error e =>
    simp only at h
    exact hx t tok pth L (by rw [hxt]; exact h)

theorem patchOk_tryIgnore {lbl : String} {body : M Unit}
    (hb : PatchOk lbl body) : PatchOk lbl (tryIgnore body) := by
  intro t tok pth L h
  exact hb t tok pth L h

theorem patchOk_tryElse {lbl : String} {body onSuccess : M Unit}
    (hb : PatchOk lbl body) (hs : PatchOk lbl onSuccess) :
    PatchOk lbl (tryElse body onSuccess) := by
  intro t tok pth L h
  replace h : Event.apiPatchLabels tok pth L ∈ (tryElse body onSuccess t).1 := h
  unfold tryElse at h
  rcases hbt : body t with ⟨t1, r⟩
  rw [hbt] at h
  cases r with
  | ok a =>
    simp only at h
    rcases hs t1 tok pth L h with h1 | h1
    · exact hb t tok pth L (by rw [hbt]; exact h1)
    · exact Or.inr h1
  | error e =>
    simp only at h
    exact hb t tok pth L (by rw [hbt]; exact h)

theorem errSafe_pure (P : Err → Prop) (a : α) : ErrSafe P (Pure.pure a : M α) := by
  intro t e h
  exact Except.noConfusion h

theorem errSafe_throw (P : Err → Prop) (er : Err) (hP : P er) :
    ErrSafe P (throwErr er : M α) := by
  intro t e h
  cases h
  exact hP

theorem errSafe_checkCall (P : Err → Prop) (cmd : List String) (b : Bool)
    (hP : P (.calledProcess cmd)) : ErrSafe P (checkCall cmd b) := by
  intro t e h
  cases b with
  | true => exact Except.noConfusion h
  | false => cases h; exact hP

theorem errSafe_makeGet (P : Err → Prop) (token path : String) (st : Nat)
    (payload : α) (exp : Nat) (hP : P (.badStatus path st)) :
    ErrSafe P (makeGetRequest token path st payload exp) := by
  intro t e h
  simp only [makeGetRequest] at h
  by_cases hst : st = exp
  · rw [if_pos hst] at h
    exact Except.noConfusion h
  · rw [if_neg hst] at h
    cases h
    exact hP

theorem errSafe_makeLabels (P : Err → Prop) (token path : String)
    (L : Finset String) (st exp : Nat) (hP : P (.badStatus path st)) :
    ErrSafe P (makeLabelsRequest token path L st exp) := by
  intro t e h
  simp only [makeLabelsRequest] at h
  by_cases hst : st = exp
  · rw [if_pos hst] at h
    exact Except.noConfusion h
  · rw [if_neg hst] at h
    cases h
    exact hP

theorem errSafe_bind {P : Err → Prop} {x : M α} {f : α → M β}
    (hx : ErrSafe P x) (hf : ∀ a, ErrSafe P (f a)) : ErrSafe P (x >>= f) := by
  intro t e h
  replace h : (M.bind x f t).2 = .error e := h
  unfold M.bind at h
  rcases hxt : x t with ⟨t1, r⟩
  rw [hxt] at h
  cases r with
  | ok a =>
    simp only at h
    exact hf a t1 e h
  | error e1 =>
    simp only at h
    injection h with h2
    subst h2
    exact hx t _ (by rw [hxt])

theorem errSafe_tryIgnore (P : Err → Prop) (body : M Unit) :
    ErrSafe P (tryIgnore body) := by
  intro t e h
  exact Except.noConfusion h

theorem errSafe_tryElse {P : Err → Prop} {body onSuccess : M Unit}
    (hs : ErrSafe P onSuccess) : ErrSafe P (tryElse body onSuccess) := by
  intro t e h
  replace h : (tryElse body onSuccess t).2 = .error e := h
  unfold tryElse at h
  rcases hbt : body t with ⟨t1, r⟩
  rw [hbt] at h
  cases r with
  | ok a =>
    simp only at h
    exact hs t1 e h
  | error e1 =>
    simp only at h
    exact Except.noConfusion h

/-- Function `mainAfterGates` can fail in many ways, but never with the
"full API token missing" abort: that abort lives before it. -/
theorem errSafe_mainAfterGates (cfg : Config) (w : World) (pr : PrPayload)
    (S : Finset String) : ErrSafe NotFullAbort (mainAfterGates cfg w pr S) := by
  unfold mainAfterGates
  refine errSafe_bind (errSafe_makeGet _ _ _ _ _ _ (fun d h => Err.noConfusion h))
    (fun user => ?_)
  refine errSafe_bind (errSafe_makeGet _ _ _ _ _ _ (fun d h => Err.noConfusion h))
    (fun emails => ?_)
  refine errSafe_bind (P := NotFullAbort) ?_ (fun userEmail => ?_)
  · unfold firstPrimaryEmail
    split
    · exact errSafe_throw _ _ (fun d h => Err.noConfusion h)
    · exact errSafe_pure _ _
  refine errSafe_bind (errSafe_checkCall _ _ _ (fun d h => Err.noConfusion h))
    (fun _ => ?_)
  refine errSafe_bind (errSafe_checkCall _ _ _ (fun d h => Err.noConfusion h))
    (fun _ => ?_)
  refine errSafe_bind (errSafe_checkCall _ _ _ (fun d h => Err.noConfusion h))
    (fun _ => ?_)
  split
  · exact errSafe_throw _ _ (fun d h => Err.noConfusion h)
  refine errSafe_bind (errSafe_checkCall _ _ _ (fun d h => Err.noConfusion h))
    (fun _ => ?_)
  split
  · exact errSafe_throw _ _ (fun d h => Err.noConfusion h)
  split
  · exact errSafe_throw _ _ (fun d h => Err.noConfusion h)
  refine errSafe_bind (errSafe_checkCall _ _ _ (fun d h => Err.noConfusion h))
    (fun _ => ?_)
  refine errSafe_bind (errSafe_checkCall _ _ _ (fun d h => Err.noConfusion h))
    (fun _ => ?_)
  refine errSafe_bind (errSafe_checkCall _ _ _ (fun d h => Err.noConfusion h))
    (fun _ => ?_)
  refine errSafe_bind (errSafe_tryIgnore _ _) (fun _ => ?_)
  refine errSafe_bind (errSafe_checkCall _ _ _ (fun d h => Err.noConfusion h))
    (fun _ => ?_)
  refine errSafe_bind (errSafe_checkCall _ _ _ (fun d h => Err.noConfusion h))
    (fun _ => ?_)
  refine errSafe_bind (errSafe_tryElse
    (errSafe_checkCall _ _ _ (fun d h => Err.noConfusion h))) (fun _ => ?_)
  exact errSafe_makeLabels _ _ _ _ _ _ (fun d h => Err.noConfusion h)

/-- Every label `PATCH` issued anywhere in `mainAfterGates` carries the
fixed label. -/
theorem patchOk_mainAfterGates (cfg : Config) (w : World) (pr : PrPayload)
    (S : Finset String) : PatchOk cfg.fixedLabel (mainAfterGates cfg w pr S) := by
  unfold mainAfterGates
  refine patchOk_bind (patchOk_makeGet _ _ _ _ _ _) (fun user => ?_)
  refine patchOk_bind (patchOk_makeGet _ _ _ _ _ _) (fun emails => ?_)
  refine patchOk_bind ?_ (fun userEmail => ?_)
  · unfold firstPrimaryEmail
    split
    · exact patchOk_throw _ _
    · exact patchOk_pure _ _
  refine patchOk_bind (patchOk_checkCall _ _ _) (fun _ => ?_)
  refine patchOk_bind (patchOk_checkCall _ _ _) (fun _ => ?_)
  refine patchOk_bind (patchOk_checkCall _ _ _) (fun _ => ?_)
  split
  · exact patchOk_throw _ _
  refine patchOk_bind (patchOk_checkCall _ _ _) (fun _ => ?_)
  split
  · exact patchOk_throw _ _
  split
  · exact patchOk_throw _ _
  refine patchOk_bind (patchOk_checkCall _ _ _) (fun _ => ?_)
  refine patchOk_bind (patchOk_checkCall _ _ _) (fun _ => ?_)
  refine patchOk_bind (patchOk_checkCall _ _ _) (fun _ => ?_)
  refine patchOk_bind (patchOk_tryIgnore (patchOk_checkCall _ _ _)) (fun _ => ?_)
  refine patchOk_bind (patchOk_checkCall _ _ _) (fun _ => ?_)
  refine patchOk_bind (patchOk_checkCall _ _ _) (fun _ => ?_)
  refine patchOk_bind (patchOk_tryElse (patchOk_checkCall _ _ _)
    (patchOk_checkCall _ _ _)) (fun _ => ?_)
  exact patchOk_makeLabels _ _ _ _ _ _ (Finset.mem_insert_self _ _)

/-- Every label `PATCH` issued anywhere in `main` carries the fixed
label. -/
theorem patchOk_mainM (cfg : Config) (w : World) :
    PatchOk cfg.fixedLabel (mainM cfg w) := by
  unfold mainM
  refine patchOk_bind (patchOk_makeGet _ _ _ _ _ _) (fun pr => ?_)
  dsimp only
  split
  · exact patchOk_pure _ _
  split
  · exact patchOk_pure _ _
  split
  · exact patchOk_throw _ _
  exact patchOk_mainAfterGates _ _ _ _

/-! ## Claims -/

/-- Claim **C1.** For every PR whose label set does not contain both the
`dependencies` label and the `terraform` label, the program performs no
API mutation and no subprocess invocation (so no git, terraform, curl
or write API call) and exits successfully. -/
theorem claim1_no_action_without_gate_labels (cfg : Config) (w : World)
    (h1 : w.fetchStatus = 200)
    (h2 : ¬ ("dependencies" ∈ w.prLabels ∧ "terraform" ∈ w.prLabels)) :
    (runMain cfg w).2 = .ok () ∧
      ∀ e ∈ (runMain cfg w).1, e.isApiMutation = false ∧ e.isProcCall = false := by
  rw [run_bail_noGateLabels cfg w h1 h2]
  refine ⟨rfl, ?_⟩
  intro e he
  simp only [List.mem_singleton] at he
  subst he
  exact ⟨rfl, rfl⟩

/-- Witness for C1 on a concrete PR carrying only the `dependencies`
label. -/
theorem claim1_no_action_without_gate_labels_witness :
    (runMain exampleCfg noLabelWorld).2 = .ok () ∧
      ∀ e ∈ (runMain exampleCfg noLabelWorld).1,
        e.isApiMutation = false ∧ e.isProcCall = false :=
  claim1_no_action_without_gate_labels exampleCfg noLabelWorld (by decide) (by decide)

/-- Claim **C4.** A PR already carrying the fixed label triggers no further
action and the run exits successfully; moreover every label `PATCH` the
program ever issues carries the fixed label, so a rerun after a
successful (label-setting) run is such a no-op. -/
theorem claim4_fixed_label_noop_and_idempotent :
    (∀ cfg w, w.fetchStatus = 200 → cfg.fixedLabel ∈ w.prLabels →
      (runMain cfg w).2 = .ok () ∧
        ∀ e ∈ (runMain cfg w).1, e.isApiMutation = false ∧ e.isProcCall = false) ∧
    (∀ cfg w tok pth L, Event.apiPatchLabels tok pth L ∈ (runMain cfg w).1 →
      cfg.fixedLabel ∈ L) := by
  constructor
  · intro cfg w h1 h2
    rw [run_bail_fixedLabel cfg w h1 h2]
    refine ⟨rfl, ?_⟩
    intro e he
    simp only [List.mem_singleton] at he
    subst he
    exact ⟨rfl, rfl⟩
  · intro cfg w tok pth L h
    rcases patchOk_mainM cfg w [] tok pth L h with h1 | h1
    · exact absurd h1 (List.not_mem_nil _)
    · exact h1

/-- Witness for C4 on a concrete PR that already carries
`multiplatform-hashes`. -/
theorem claim4_fixed_label_noop_and_idempotent_witness :
    (runMain exampleCfg fixedLabelWorld).2 = .ok () ∧
      ∀ e ∈ (runMain exampleCfg fixedLabelWorld).1,
        e.isApiMutation = false ∧ e.isProcCall = false :=
  claim4_fixed_label_noop_and_idempotent.1 exampleCfg fixedLabelWorld
    (by decide) (by decide)

/-- Claim **C10.** The full-access token requirement is enforced only after
both gate checks pass: with a non-empty light token, a PR that lacks a
gating label or already carries the fixed label exits successfully even
when the full-token variable is unset or empty, and the
missing-full-token abort can only occur on PRs that pass both checks. -/
theorem claim10_full_token_check_only_after_gates (args : Args) (w : World)
    (l : String)
    (hl : lookupEnv w.env args.lightVar = some l)
    (hne : l ≠ "")
    (hfetch : w.fetchStatus = 200) :
    ((lookupEnv w.env args.fullVar).getD "" = "" →
      (¬ ("dependencies" ∈ w.prLabels ∧ "terraform" ∈ w.prLabels) ∨
          args.fixedLabel ∈ w.prLabels) →
      (topLevel args w).2 = .ok ()) ∧
    (∀ d, (topLevel args w).2 = .error (.abortEmptyToken true d) →
      ("dependencies" ∈ w.prLabels ∧ "terraform" ∈ w.prLabels) ∧
        args.fixedLabel ∉ w.prLabels) := by
  have htl : topLevel args w =
      runMain
        { tokenLight := l
          tokenFull := (lookupEnv w.env args.fullVar).getD ""
          repoOwner := args.repoOwner
          repoName := args.repoName
          prNumber := args.prNumber
          fixedLabel := args.fixedLabel
          platforms := args.platforms } w := by
    unfold topLevel
    rw [hl]
    simp [hne]
  constructor
  · intro hfull hbail
    rcases hbail with hg | hfx
    · rw [htl, run_bail_noGateLabels _ w hfetch hg]
    · rw [htl, run_bail_fixedLabel _ w hfetch hfx]
  · intro d hres
    by_cases hg : "dependencies" ∈ w.prLabels ∧ "terraform" ∈ w.prLabels
    · by_cases hfx : args.fixedLabel ∈ w.prLabels
      · rw [htl, run_bail_fixedLabel _ w hfetch hfx] at hres
        exact absurd hres (by simp)
      · exact ⟨hg, hfx⟩
    · rw [htl, run_bail_noGateLabels _ w hfetch hg] at hres
      exact absurd hres (by simp)

/-- Witness for C10 on a concrete environment with no full-token
variable and a PR missing the `terraform` label. -/
theorem claim10_full_token_check_only_after_gates_witness :
    (topLevel exampleArgs noFullNoLabelWorld).2 = .ok () :=
  (claim10_full_token_check_only_after_gates exampleArgs noFullNoLabelWorld
      "ghp_light" (by decide) (by decide) (by decide)).1
    (by decide) (Or.inl (by decide))

/-- Python `lstrip('/')` in the source removes every leading slash; this aligns
it with the recursive spec-side formulation. -/
theorem dropWhile_slash_eq_removeLeadingSlashes (cs : List Char) :
    cs.dropWhile (fun c => c = '/') = removeLeadingSlashes cs := by
  induction cs with
  | nil => rfl
  | cons c rest ih =>
    by_cases hc : c = '/'
    · simp [List.dropWhile_cons, removeLeadingSlashes, hc, ih]
    · simp [List.dropWhile_cons, removeLeadingSlashes, hc]

/-- Claim **C2 (counterexample).** On the matching title
`Bump a from b to c in //x` the `path` group is `//x`; the code extracts
`x` (every leading slash removed), while the claim predicts `/x`
(exactly one leading slash removed). -/
theorem claim2_counterexample :
    titlePathGroup "Bump a from b to c in //x" = some "//x" ∧
    extractProjectPath "Bump a from b to c in //x" = some "x" ∧
    stripOneLeadingSlash "//x" = "/x" ∧
    extractProjectPath "Bump a from b to c in //x" ≠
      some (stripOneLeadingSlash "//x") := by
  decide

/-- Claim **C2 (amended).** For every PR title matched by
`^Bump .+ from .+ to .+ in (?P<path>.+)$`, the extracted Terraform
project path equals the `path` group with **all** leading slashes
removed, and no other transformation (in particular no trailing-slash
handling) is applied. -/
theorem claim2_path_strips_all_leading_slashes (title p : String)
    (h : titlePathGroup title = some p) :
    extractProjectPath title = some (String.mk (removeLeadingSlashes p.toList)) := by
  simp [extractProjectPath, h, lstripSlash, dropWhile_slash_eq_removeLeadingSlashes]

/-- Witness for the amended C2 on a realistic dependabot title. -/
theorem claim2_path_strips_all_leading_slashes_witness :
    extractProjectPath "Bump hashicorp/aws from 4.0 to 5.0 in /infra/network" =
      some (String.mk (removeLeadingSlashes "/infra/network".toList)) :=
  claim2_path_strips_all_leading_slashes
    "Bump hashicorp/aws from 4.0 to 5.0 in /infra/network" "/infra/network"
    (by decide)

/-- Claim **C5 (counterexample).** A world whose initial PR fetch returns 401
and whose second response would be 200: the claim predicts a retried,
successful run; the program instead makes exactly one request and dies
with the 401. -/
theorem claim5_counterexample :
    (retryWorld.prResp 0).1 = 401 ∧
    (retryWorld.prResp 1).1 = 200 ∧
    (runMain exampleCfg retryWorld).2 =
      .error (.badStatus (pullsPath exampleCfg) 401) ∧
    ((runMain exampleCfg retryWorld).1.filter (fun e => e.isApiRequest)).length
      = 1 := by
  decide

/-- Claim **C5 (amended).** No API call is retried: the initial PR fetch, like
every other call, accepts exactly one success status (200) and any other
status — 401 included — is immediately fatal after a single request;
likewise a non-200 on the authenticated-user request is fatal with no
retry. -/
theorem claim5_fatal_status_no_retry (cfg : Config) (w : World) :
    (w.fetchStatus ≠ 200 →
      (runMain cfg w).1 = [fetchEvent cfg] ∧
      (runMain cfg w).2 = .error (.badStatus (pullsPath cfg) w.fetchStatus)) ∧
    (w.fetchStatus = 200 →
      ("dependencies" ∈ w.prLabels ∧ "terraform" ∈ w.prLabels) →
      cfg.fixedLabel ∉ w.prLabels →
      cfg.tokenFull ≠ "" →
      w.userStatus ≠ 200 →
      (runMain cfg w).1 =
        [fetchEvent cfg, .apiRequest cfg.tokenFull "GET" "user"] ∧
      (runMain cfg w).2 = .error (.badStatus "user" w.userStatus)) := by
  constructor
  · intro h
    have h' : ¬ (w.prResp 0).1 = 200 := h
    have h2 : w.fetchStatus = (w.prResp 0).1 := rfl
    rw [h2]
    constructor <;>
      simp [runMain, mainM, makeGetRequest, Bind.bind, M.bind, fetchEvent, h']
  · intro h1 h2 h3 h4 h5
    rw [run_pastGates cfg w h1 h2 h3 h4]
    constructor <;>
      simp [mainAfterGates, makeGetRequest, Bind.bind, M.bind, fetchEvent, h5]

/-- Witness for the amended C5: the 401 world dies on the single fetch,
and a 500 on the user request is fatal after exactly the two requests. -/
theorem claim5_fatal_status_no_retry_witness :
    ((runMain exampleCfg retryWorld).1 = [fetchEvent exampleCfg] ∧
      (runMain exampleCfg retryWorld).2 =
        .error (.badStatus (pullsPath exampleCfg) retryWorld.fetchStatus)) ∧
    ((runMain exampleCfg userFailWorld).1 =
        [fetchEvent exampleCfg, .apiRequest exampleCfg.tokenFull "GET" "user"] ∧
      (runMain exampleCfg userFailWorld).2 =
        .error (.badStatus "user" userFailWorld.userStatus)) :=
  ⟨(claim5_fatal_status_no_retry exampleCfg retryWorld).1 (by decide),
   (claim5_fatal_status_no_retry exampleCfg userFailWorld).2 (by decide)
     (by decide) (by decide) (by decide) (by decide)⟩

/-- The `try/except`-guarded `terraform init` call appends its event and
succeeds regardless of the exit status. -/
theorem tryIgnore_checkCall (cmd : List String) (b : Bool) (t : Trace) :
    tryIgnore (checkCall cmd b) t = (t ++ [Event.procCall cmd], .ok ()) := rfl

/-- Publish stage, commit failing (either kind): the commit event is
recorded, no push happens, and the run proceeds straight to the label
patch. -/
theorem terraformTail_commitFail (cfg : Config) (w : World) (t : Trace)
    (hlock : w.lockOk = true) (hadd : w.addOk = true)
    (hc : w.commitResult.exitOk = false) :
    terraformTail cfg w t =
      (t ++ [Event.procCall ["/terraform", "init"],
             Event.procCall (lockCmd cfg.platforms),
             Event.procCall ["git", "add", ".terraform.lock.hcl"],
             Event.procCall ["git", "commit", "-m", "Multiplatform hashes."],
             Event.apiPatchLabels cfg.tokenLight (issuesPath cfg)
               (insert cfg.fixedLabel w.prLabels)],
       if w.patchStatus = 200 then .ok ()
       else .error (.badStatus (issuesPath cfg) w.patchStatus)) := by
  simp [terraformTail, tryIgnore, tryElse, checkCall, makeLabelsRequest,
    Bind.bind, M.bind, hlock, hadd, hc]

/-- Publish stage, commit succeeding but push failing: the run dies on
the push and no label patch is made. -/
theorem terraformTail_pushFail (cfg : Config) (w : World) (t : Trace)
    (hlock : w.lockOk = true) (hadd : w.addOk = true)
    (hc : w.commitResult.exitOk = true) (hp : w.pushOk = false) :
    terraformTail cfg w t =
      (t ++ [Event.procCall ["/terraform", "init"],
             Event.procCall (lockCmd cfg.platforms),
             Event.procCall ["git", "add", ".terraform.lock.hcl"],
             Event.procCall ["git", "commit", "-m", "Multiplatform hashes."],
             Event.procCall ["git", "push"]],
       .error (.calledProcess ["git", "push"])) := by
  simp [terraformTail, tryIgnore, tryElse, checkCall, makeLabelsRequest,
    Bind.bind, M.bind, hlock, hadd, hc, hp]

/-- Publish stage, commit and push both succeeding: push event recorded,
then the label patch. -/
theorem terraformTail_pushOk (cfg : Config) (w : World) (t : Trace)
    (hlock : w.lockOk = true) (hadd : w.addOk = true)
    (hc : w.commitResult.exitOk = true) (hp : w.pushOk = true) :
    terraformTail cfg w t =
      (t ++ [Event.procCall ["/terraform", "init"],
             Event.procCall (lockCmd cfg.platforms),
             Event.procCall ["git", "add", ".terraform.lock.hcl"],
             Event.procCall ["git", "commit", "-m", "Multiplatform hashes."],
             Event.procCall ["git", "push"],
             Event.apiPatchLabels cfg.tokenLight (issuesPath cfg)
               (insert cfg.fixedLabel w.prLabels)],
       if w.patchStatus = 200 then .ok ()
       else .error (.badStatus (issuesPath cfg) w.patchStatus)) := by
  simp [terraformTail, tryIgnore, tryElse, checkCall, makeLabelsRequest,
    Bind.bind, M.bind, hlock, hadd, hc, hp]

/-- The lock step failing kills the run right there. -/
theorem terraformTail_lockFail (cfg : Config) (w : World) (t : Trace)
    (hlock : w.lockOk = false) :
    terraformTail cfg w t =
      (t ++ [Event.procCall ["/terraform", "init"],
             Event.procCall (lockCmd cfg.platforms)],
       .error (.calledProcess (lockCmd cfg.platforms))) := by
  simp [terraformTail, tryIgnore, tryElse, checkCall, makeLabelsRequest,
    Bind.bind, M.bind, hlock]

/-- The add step failing kills the run right there. -/
theorem terraformTail_addFail (cfg : Config) (w : World) (t : Trace)
    (hlock : w.lockOk = true) (hadd : w.addOk = false) :
    terraformTail cfg w t =
      (t ++ [Event.procCall ["/terraform", "init"],
             Event.procCall (lockCmd cfg.platforms),
             Event.procCall ["git", "add", ".terraform.lock.hcl"]],
       .error (.calledProcess ["git", "add", ".terraform.lock.hcl"])) := by
  simp [terraformTail, tryIgnore, tryElse, checkCall, makeLabelsRequest,
    Bind.bind, M.bind, hlock, hadd]

/-- Claim **C3.** Once both gate checks pass and the run reaches the publish
stage (lock regenerated, lock file staged, and — when a commit happened —
pushed), the program makes exactly one label-update API call, whose
label set is the PR's original label set plus the fixed label; the call
happens no matter how the commit went, in particular also when nothing
was committed. -/
theorem claim3_single_unconditional_label_patch (cfg : Config) (w : World)
    (h : reachesTerraform cfg w) (hlock : w.lockOk = true) (hadd : w.addOk = true)
    (hpush : w.commitResult.exitOk = true → w.pushOk = true) :
    (runMain cfg w).1.filter (fun e => e.isApiMutation) =
      [Event.apiPatchLabels cfg.tokenLight (issuesPath cfg)
        (insert cfg.fixedLabel w.prLabels)] := by
  rw [run_reachesTerraform cfg w h]
  by_cases hc : w.commitResult.exitOk = true
  · rw [terraformTail_pushOk cfg w _ hlock hadd hc (hpush hc)]
    simp [preTerraformTrace, fetchEvent, Event.isApiMutation]
  · rw [terraformTail_commitFail cfg w _ hlock hadd (by simpa using hc)]
    simp [preTerraformTrace, fetchEvent, Event.isApiMutation]

/-- Witness for C3 on a concrete run whose `git commit` found nothing to
commit: the label patch still happens, exactly once. -/
theorem claim3_single_unconditional_label_patch_witness :
    (runMain exampleCfg noDiffWorld).1.filter (fun e => e.isApiMutation) =
      [Event.apiPatchLabels exampleCfg.tokenLight (issuesPath exampleCfg)
        (insert exampleCfg.fixedLabel noDiffWorld.prLabels)] :=
  claim3_single_unconditional_label_patch exampleCfg noDiffWorld
    (by unfold reachesTerraform; decide)
    (by decide) (by decide) (by decide)

/-- Claim **C6 (counterexample).** A commit failure NOT caused by "nothing to
commit": the claim says it must be fatal, but the program swallows it,
skips the push, and finishes successfully. -/
theorem claim6_counterexample :
    commitFailWorld.commitResult = .failOther ∧
    (runMain exampleCfg commitFailWorld).2 = .ok () ∧
    Event.procCall ["git", "push"] ∉ (runMain exampleCfg commitFailWorld).1 := by
  decide

/-- Claim **C6 (amended).** In the publish stage exactly the lock file is
staged; **any** commit failure — whatever its cause — is swallowed, no
push is attempted and the run proceeds to the label patch; after a
successful commit a push is always attempted and a push failure is
fatal. -/
theorem claim6_any_commit_failure_swallowed (cfg : Config) (w : World)
    (h : reachesTerraform cfg w) (hlock : w.lockOk = true)
    (hadd : w.addOk = true) :
    (runMain cfg w).1.filter (fun e => e.isGitAdd) =
      [Event.procCall ["git", "add", ".terraform.lock.hcl"]] ∧
    (w.commitResult.exitOk = false →
      Event.procCall ["git", "push"] ∉ (runMain cfg w).1 ∧
      (runMain cfg w).2 =
        (if w.patchStatus = 200 then .ok ()
         else .error (.badStatus (issuesPath cfg) w.patchStatus))) ∧
    (w.commitResult.exitOk = true →
      Event.procCall ["git", "push"] ∈ (runMain cfg w).1 ∧
      (w.pushOk = false →
        (runMain cfg w).2 = .error (.calledProcess ["git", "push"]))) := by
  rw [run_reachesTerraform cfg w h]
  refine ⟨?_, ?_, ?_⟩
  · by_cases hc : w.commitResult.exitOk = true
    · by_cases hp : w.pushOk = true
      · rw [terraformTail_pushOk cfg w _ hlock hadd hc hp]
        simp [preTerraformTrace, fetchEvent, Event.isGitAdd, lockCmd]
      · rw [terraformTail_pushFail cfg w _ hlock hadd hc (by simpa using hp)]
        simp [preTerraformTrace, fetchEvent, Event.isGitAdd, lockCmd]
    · rw [terraformTail_commitFail cfg w _ hlock hadd (by simpa using hc)]
      simp [preTerraformTrace, fetchEvent, Event.isGitAdd, lockCmd]
  · intro hc
    rw [terraformTail_commitFail cfg w _ hlock hadd hc]
    refine ⟨?_, rfl⟩
    simp [preTerraformTrace, fetchEvent, lockCmd]
  · intro hc
    by_cases hp : w.pushOk = true
    · rw [terraformTail_pushOk cfg w _ hlock hadd hc hp]
      constructor
      · simp
      · intro hpf
        rw [hp] at hpf
        exact absurd hpf (by decide)
    · rw [terraformTail_pushFail cfg w _ hlock hadd hc (by simpa using hp)]
      exact ⟨by simp, fun _ => rfl⟩

/-- Witness for the amended C6 on a concrete run whose commit fails for
a reason other than an empty diff. -/
theorem claim6_any_commit_failure_swallowed_witness :
    ((runMain exampleCfg commitFailWorld).1.filter (fun e => e.isGitAdd) =
      [Event.procCall ["git", "add", ".terraform.lock.hcl"]]) ∧
    (Event.procCall ["git", "push"] ∉ (runMain exampleCfg commitFailWorld).1 ∧
      (runMain exampleCfg commitFailWorld).2 =
        (if commitFailWorld.patchStatus = 200 then .ok ()
         else .error (.badStatus (issuesPath exampleCfg)
           commitFailWorld.patchStatus))) :=
  have h := claim6_any_commit_failure_swallowed exampleCfg commitFailWorld
    (by unfold reachesTerraform; decide)
    (by decide) (by decide)
  ⟨h.1, h.2.1 (by decide)⟩

/-- Claim **C7.** The lock-regeneration stage runs `terraform init` and
discards its exit status (a failing init never changes the run), then
runs `terraform providers lock` with exactly one `-platform=<p>` flag
per configured platform, in order; a failing lock step is fatal. -/
theorem claim7_init_tolerated_lock_fatal (cfg : Config) (w : World)
    (h : reachesTerraform cfg w) :
    Event.procCall ["/terraform", "init"] ∈ (runMain cfg w).1 ∧
    (∀ b, runMain cfg { w with initOk := b } = runMain cfg w) ∧
    Event.procCall
      (["/terraform", "providers", "lock"] ++
        cfg.platforms.map (fun p => "-platform=" ++ p)) ∈ (runMain cfg w).1 ∧
    (w.lockOk = false →
      (runMain cfg w).2 =
        .error (.calledProcess
          (["/terraform", "providers", "lock"] ++
            cfg.platforms.map (fun p => "-platform=" ++ p)))) := by
  have hcmd : (["/terraform", "providers", "lock"] ++
      cfg.platforms.map (fun p => "-platform=" ++ p)) = lockCmd cfg.platforms := rfl
  rw [hcmd]
  refine ⟨?_, ?_, ?_, ?_⟩
  · rw [run_reachesTerraform cfg w h]
    by_cases hl : w.lockOk = true
    · by_cases ha : w.addOk = true
      · by_cases hc : w.commitResult.exitOk = true
        · by_cases hp : w.pushOk = true
          · rw [terraformTail_pushOk cfg w _ hl ha hc hp]; simp
          · rw [terraformTail_pushFail cfg w _ hl ha hc (by simpa using hp)]; simp
        · rw [terraformTail_commitFail cfg w _ hl ha (by simpa using hc)]; simp
      · rw [terraformTail_addFail cfg w _ hl (by simpa using ha)]; simp
    · rw [terraformTail_lockFail cfg w _ (by simpa using hl)]; simp
  · intro b
    have hb : reachesTerraform cfg { w with initOk := b } := h
    rw [run_reachesTerraform cfg _ hb, run_reachesTerraform cfg w h]
    rfl
  · rw [run_reachesTerraform cfg w h]
    by_cases hl : w.lockOk = true
    · by_cases ha : w.addOk = true
      · by_cases hc : w.commitResult.exitOk = true
        · by_cases hp : w.pushOk = true
          · rw [terraformTail_pushOk cfg w _ hl ha hc hp]; simp
          · rw [terraformTail_pushFail cfg w _ hl ha hc (by simpa using hp)]; simp
        · rw [terraformTail_commitFail cfg w _ hl ha (by simpa using hc)]; simp
      · rw [terraformTail_addFail cfg w _ hl (by simpa using ha)]; simp
    · rw [terraformTail_lockFail cfg w _ (by simpa using hl)]; simp
  · intro hl
    rw [run_reachesTerraform cfg w h, terraformTail_lockFail cfg w _ hl]

/-- Witness for C7 on a concrete run whose `terraform init` fails while
the lock step succeeds: the run is unaffected. -/
theorem claim7_init_tolerated_lock_fatal_witness :
    Event.procCall ["/terraform", "init"] ∈ (runMain exampleCfg initFailWorld).1 ∧
    (∀ b, runMain exampleCfg { initFailWorld with initOk := b } =
      runMain exampleCfg initFailWorld) ∧
    Event.procCall
      (["/terraform", "providers", "lock"] ++
        exampleCfg.platforms.map (fun p => "-platform=" ++ p)) ∈
      (runMain exampleCfg initFailWorld).1 ∧
    (initFailWorld.lockOk = false →
      (runMain exampleCfg initFailWorld).2 =
        .error (.calledProcess
          (["/terraform", "providers", "lock"] ++
            exampleCfg.platforms.map (fun p => "-platform=" ++ p)))) :=
  claim7_init_tolerated_lock_fatal exampleCfg initFailWorld
    (by unfold reachesTerraform; decide)

/-- The source's `v[-3:]` slice (a drop at `len - 3`) picks exactly the
last three characters. -/
theorem drop_length_sub_eq_lastChars (cs : List Char) (n : Nat) :
    cs.drop (cs.length - n) = lastChars n cs := by
  simpa [List.rtake, lastChars] using List.rtake_eq_reverse_take_reverse cs n

/-- Claim **C8.** In the environment dump, a secret-like variable whose value
is longer than 6 characters is logged as `len - 3` asterisks followed by
the value's last 3 characters, and a value of length at most 6 is logged
as `len` asterisks. -/
theorem claim8_secret_redaction (k v : String) (h : maybeSecret k = true) :
    (6 < v.length →
      redactValue k v =
        String.mk (List.replicate (v.length - 3) '*' ++ lastChars 3 v.toList)) ∧
    (v.length ≤ 6 →
      redactValue k v = String.mk (List.replicate v.length '*')) := by
  have hlen : v.length = v.toList.length := rfl
  constructor
  · intro hgt
    rw [redactValue, if_pos h, obfuscate, if_pos hgt]
    rw [hlen, drop_length_sub_eq_lastChars]
  · intro hle
    rw [redactValue, if_pos h, obfuscate, if_neg (by omega)]

/-- Witness for C8 on a secret-like name with one long and one short
value. -/
theorem claim8_secret_redaction_witness :
    redactValue "USER_API_KEY" "hunter2secret" =
      String.mk (List.replicate ("hunter2secret".length - 3) '*' ++
        lastChars 3 "hunter2secret".toList) ∧
    redactValue "USER_API_KEY" "abc" =
      String.mk (List.replicate "abc".length '*') :=
  ⟨(claim8_secret_redaction "USER_API_KEY" "hunter2secret" (by decide)).1
      (by decide),
   (claim8_secret_redaction "USER_API_KEY" "abc" (by decide)).2 (by decide)⟩

/-- Claim **C9 (counterexample).** When the light-token variable is entirely
absent from the environment, the program does exit non-zero — but via an
uncaught `KeyError`, with no redacted environment dump, contrary to the
claim. -/
theorem claim9_counterexample :
    (topLevel exampleArgs noLightWorld).2 = .error (.keyError "GITHUB_TOKEN") ∧
    Err.hasDump (.keyError "GITHUB_TOKEN") = false := by
  decide

/-- Claim **C9 (amended).** A present-but-empty light token makes the program
exit non-zero with the redacted environment dump, naming the light
token; an absent light-token variable makes it exit non-zero via an
uncaught `KeyError` naming the variable, without the dump; and the dump,
when produced, covers every environment variable. -/
theorem claim9_missing_token_behaviour (args : Args) (w : World) :
    (lookupEnv w.env args.lightVar = some "" →
      (topLevel args w).2 = .error (.abortEmptyToken false (envDump w.env))) ∧
    (lookupEnv w.env args.lightVar = none →
      (topLevel args w).2 = .error (.keyError args.lightVar)) ∧
    (∀ k v, (k, v) ∈ w.env → dumpEntry k v ∈ envDumpLines w.env) := by
  refine ⟨?_, ?_, ?_⟩
  · intro h
    unfold topLevel
    rw [h]
    simp
  · intro h
    unfold topLevel
    rw [h]
  · intro k v hkv
    unfold envDumpLines sortEnv
    have hperm := List.mergeSort_perm w.env (fun a b => a.1 ≤ b.1)
    exact List.mem_map_of_mem _ (hperm.mem_iff.mpr hkv)

/-- Witness for the amended C9 on a concrete environment whose light
token is present but empty. -/
theorem claim9_missing_token_behaviour_witness :
    (topLevel exampleArgs emptyLightWorld).2 =
      .error (.abortEmptyToken false (envDump emptyLightWorld.env)) ∧
    dumpEntry "USER_API_KEY" "hunter2secret" ∈ envDumpLines emptyLightWorld.env :=
  ⟨(claim9_missing_token_behaviour exampleArgs emptyLightWorld).1 (by decide),
   (claim9_missing_token_behaviour exampleArgs emptyLightWorld).2.2
     "USER_API_KEY" "hunter2secret" (by decide)⟩

end MultiplatformHashes

